import Mathlib

/-!
A shallow embedding of the time-stepping core of pyphasefield
(pyphasefield/simulation.py): the Simulation state container, the
boundary-condition engine, the temperature-field model, the step loop, and
checkpoint save/load.  Machine reals are modeled as rationals; numpy arrays
of rank 1 to 3 as nested lists; fallible code returns Except.  Comments cite
the line numbers of simulation.py.
-/

namespace Pyphasefield

/-- Python sequence indexing: a non-negative index must be below the length,
a negative index counts from the end. -/
def pyIdx (n : ℕ) (i : ℤ) : Option ℕ :=
  if 0 ≤ i then (if i < (n : ℤ) then some i.toNat else none)
  else (if 0 ≤ i + (n : ℤ) then some (i + (n : ℤ)).toNat else none)

def pyGet {α : Type} (l : List α) (i : ℤ) : Option α :=
  (pyIdx l.length i).bind l.get?

def pySet {α : Type} (l : List α) (i : ℤ) (v : α) : Option (List α) :=
  (pyIdx l.length i).map (fun k => l.set k v)

/-- Elementwise combination of two lists that requires equal lengths,
modeling a numpy elementwise operation between same-shape arrays. -/
def zipWithExact {α β γ : Type} (f : α → β → Option γ) : List α → List β → Option (List γ)
  | [], [] => some []
  | a :: as, b :: bs =>
      match f a b, zipWithExact f as bs with
      | some c, some cs => some (c :: cs)
      | _, _ => none
  | _, [] => none
  | [], _ => none

/-- A numpy array of rank 1, 2 or 3 over the reals (modeled as rationals).
Every array in the modeled code paths has one of these ranks. -/
inductive Arr : Type
  | r1 (d : List ℚ)
  | r2 (d : List (List ℚ))
  | r3 (d : List (List (List ℚ)))
deriving DecidableEq, Repr

/-- The value of len(a.shape). -/
def Arr.rank : Arr → ℕ
  | .r1 _ => 1
  | .r2 _ => 2
  | .r3 _ => 3

/-- A slice a[k] of an array along axis 0: a scalar for rank 1, a rank-1
array for rank 2, a rank-2 array for rank 3. -/
inductive Sl : Type
  | s0 (x : ℚ)
  | s1 (x : List ℚ)
  | s2 (x : List (List ℚ))
deriving DecidableEq, Repr

/-- Read the axis-0 slice a[i] (Python negative indices included). -/
def Arr.get0 : Arr → ℤ → Option Sl
  | .r1 d, i => (pyGet d i).map .s0
  | .r2 d, i => (pyGet d i).map .s1
  | .r3 d, i => (pyGet d i).map .s2

/-- Write the axis-0 slice a[i] = v.  A write whose right-hand side has a
different rank than the destination slice is rejected (numpy would raise a
broadcast error); no modeled code path performs such a write. -/
def Arr.set0 : Arr → ℤ → Sl → Option Arr
  | .r1 d, i, .s0 x => (pySet d i x).map .r1
  | .r2 d, i, .s1 x => (pySet d i x).map .r2
  | .r3 d, i, .s2 x => (pySet d i x).map .r3
  | _, _, _ => none

/-- Elementwise difference of two same-shape slices. -/
def Sl.sub : Sl → Sl → Option Sl
  | .s0 a, .s0 b => some (.s0 (a - b))
  | .s1 a, .s1 b => (zipWithExact (fun x y => some (x - y)) a b).map .s1
  | .s2 a, .s2 b => (zipWithExact (zipWithExact (fun x y => some (x - y))) a b).map .s2
  | _, _ => none

/-- Elementwise sum of two same-shape slices. -/
def Sl.add : Sl → Sl → Option Sl
  | .s0 a, .s0 b => some (.s0 (a + b))
  | .s1 a, .s1 b => (zipWithExact (fun x y => some (x + y)) a b).map .s1
  | .s2 a, .s2 b => (zipWithExact (zipWithExact (fun x y => some (x + y))) a b).map .s2
  | _, _ => none

/-- Multiplication of a slice by a scalar on the left, as in self.dx * bc. -/
def Sl.smul (c : ℚ) : Sl → Sl
  | .s0 a => .s0 (c * a)
  | .s1 a => .s1 (a.map (fun x => c * x))
  | .s2 a => .s2 (a.map (fun r => r.map (fun x => c * x)))

/-- The broadcast array += c of numpy. -/
def Arr.addScalar (c : ℚ) : Arr → Arr
  | .r1 d => .r1 (d.map (fun x => x + c))
  | .r2 d => .r2 (d.map (fun r => r.map (fun x => x + c)))
  | .r3 d => .r3 (d.map (fun p => p.map (fun r => r.map (fun x => x + c))))

/-- np.zeros(dims) for dims of rank 1 to 3; ranks outside the model give
none. -/
def npZeros : List ℕ → Option Arr
  | [n] => some (.r1 (List.replicate n 0))
  | [m, n] => some (.r2 (List.replicate m (List.replicate n 0)))
  | [k, m, n] => some (.r3 (List.replicate k (List.replicate m (List.replicate n 0))))
  | _ => none

/-- True when two arrays have identical shape. -/
def Arr.sameShape : Arr → Arr → Bool
  | .r1 a, .r1 b => a.length == b.length
  | .r2 a, .r2 b => a.length == b.length &&
      (List.zip a b).all (fun p => p.1.length == p.2.length)
  | .r3 a, .r3 b => a.length == b.length &&
      (List.zip a b).all (fun p => p.1.length == p.2.length &&
        (List.zip p.1 p.2).all (fun q => q.1.length == q.2.length))
  | _, _ => false

/-- Elementwise combination of two same-shape arrays by a scalar function. -/
def Arr.zipPure (f : ℚ → ℚ → ℚ) : Arr → Arr → Option Arr
  | .r1 a, .r1 b => (zipWithExact (fun x y => some (f x y)) a b).map .r1
  | .r2 a, .r2 b => (zipWithExact (zipWithExact (fun x y => some (f x y))) a b).map .r2
  | .r3 a, .r3 b =>
      (zipWithExact (zipWithExact (zipWithExact (fun x y => some (f x y)))) a b).map .r3
  | _, _ => none

/-- The index expressions appearing in the slice tables of
apply_boundary_conditions (simulation.py lines 498-503): a bare integer k,
or a Python tuple holding one or two None entries followed by k.  In a numpy
index tuple, None is np.newaxis: it inserts a new length-one axis and
consumes no axis of the array being indexed, so in all three forms the
integer k indexes AXIS 0 of the array.  In particular a[(None, k)] is a view
of the axis-0 slice a[k] (with an extra leading axis), not the axis-1 slice
a[:, k], which would require slice(None) instead of None. -/
inductive NpIndex : Type
  | int (k : ℤ)
  | noneInt (k : ℤ)
  | noneNoneInt (k : ℤ)
deriving DecidableEq, Repr

/-- The axis-0 index that an NpIndex reads or writes, per the numpy newaxis
semantics described above. -/
def NpIndex.axis0 : NpIndex → ℤ
  | .int k => k
  | .noneInt k => k
  | .noneNoneInt k => k

/-- simulation.py line 498. -/
def neumann_slices_1 : List (List NpIndex) :=
  [[.int 0, .noneInt 0, .noneNoneInt 0], [.int 1, .noneInt 1, .noneNoneInt 1]]

/-- simulation.py line 499. -/
def neumann_slices_2 : List (List NpIndex) :=
  [[.int (-1), .noneInt (-1), .noneNoneInt (-1)], [.int (-2), .noneInt (-2), .noneNoneInt (-2)]]

/-- simulation.py line 500. -/
def periodic_slices_1 : List (List NpIndex) :=
  [[.int 0, .noneInt 0, .noneNoneInt 0], [.int (-2), .noneInt (-2), .noneNoneInt (-2)]]

/-- simulation.py line 501. -/
def periodic_slices_2 : List (List NpIndex) :=
  [[.int (-1), .noneInt (-1), .noneNoneInt (-1)], [.int 1, .noneInt 1, .noneNoneInt 1]]

/-- simulation.py line 502 (the source spells the policy DIRCHLET). -/
def dirchlet_slices_1 : List NpIndex := [.int 0, .noneInt 0, .noneNoneInt 0]

/-- simulation.py line 503. -/
def dirchlet_slices_2 : List NpIndex := [.int (-1), .noneInt (-1), .noneNoneInt (-1)]

/-- The Python exceptions that the modeled code paths can raise. -/
inductive PyErr : Type
  | nameError (n : String)
  | attributeError (n : String)
  | typeError
  | valueError (msg : String)
  | indexError
  | zeroDivisionError
  | importError
  | fileNotFoundError
  | syntaxError
  | unmodeled (what : String)
deriving DecidableEq, Repr

/-- A named field (field.py is not part of the provided sources).
Modelled from the spec: a Field is a named, tagged multi-dimensional array;
the visualization tag plays no role in any claim and is omitted. -/
structure Field : Type where
  name : String
  data : Arr
deriving DecidableEq, Repr

/-- The value of self._boundary_conditions_type: the None default, a single
policy token, or a per-axis list of tokens. -/
inductive BCSpec : Type
  | noneBC
  | str (s : String)
  | list (l : List String)
deriving DecidableEq, Repr

/-- Ghost trace entries recording the order in which the step loop invokes
its operations; the integer is the time-step counter at invocation.  No
modeled behavior reads this trace. -/
inductive Ev : Type
  | incr (n : ℤ)
  | engineStep (n : ℤ)
  | tempUpdate (n : ℤ)
  | bcApply (n : ℤ)
  | checkpoint (n : ℤ)
deriving DecidableEq, Repr

/-- The Simulation state (simulation.py lines 16-88), restricted to the
attributes the modeled operations read or write.  underscore_time_step_counter
models the attribute self._time_step_counter, which __init__ never assigns
(it assigns self.time_step_counter); it is none while unbound.  saved_files
models the file system as a map from file name to the named-array archive
np.savez wrote there.  events is the ghost invocation trace.  dx and dt are
taken as rationals: their None defaults are never exercised by a claim. -/
structure Sim : Type where
  fields : List Field
  temperature : Option Field
  boundary_conditions_type : BCSpec
  boundary_conditions_array : List Arr
  dx : ℚ
  dt : ℚ
  dTdt : ℚ
  initial_T : Option ℚ
  temperature_units : String
  temperature_type : String
  dimensions : List ℕ
  time_step_counter : ℤ
  underscore_time_step_counter : Option ℤ
  requires_initialization : Bool
  uses_gpu : Bool
  autosave_flag : Bool
  autosave_rate : Option ℤ
  save_path : Option String
  tdb_path : Option String
  saved_files : List (String × List (String × Arr))
  events : List Ev
deriving DecidableEq, Repr

/-- Look up slices[r][i] in a two-entry slice table and resolve it to its
axis-0 index; i beyond the three stored entries is a Python IndexError. -/
def sliceAt (tbl : List (List NpIndex)) (r i : ℕ) : Except PyErr ℤ :=
  match (tbl.get? r).bind (fun row => row.get? i) with
  | some idx => .ok idx.axis0
  | none => .error .indexError

/-- Look up a flat slice table entry tbl[i] and resolve it to axis 0. -/
def flatSliceAt (tbl : List NpIndex) (i : ℕ) : Except PyErr ℤ :=
  match tbl.get? i with
  | some idx => .ok idx.axis0
  | none => .error .indexError

def getField (s : Sim) (j : ℕ) : Except PyErr Field :=
  match s.fields.get? j with
  | some f => .ok f
  | none => .error .indexError

def getBCRow (s : Sim) (j : ℕ) : Except PyErr Arr :=
  match s.boundary_conditions_array.get? j with
  | some a => .ok a
  | none => .error .indexError

def setFieldData (s : Sim) (j : ℕ) (d : Arr) : Except PyErr Sim :=
  match s.fields.get? j with
  | some f => .ok { s with fields := s.fields.set j { f with data := d } }
  | none => .error .indexError

def arrGet (a : Arr) (i : ℤ) : Except PyErr Sl :=
  match a.get0 i with
  | some v => .ok v
  | none => .error .indexError

/-- An axis-0 array write; failure is an IndexError or, for a rank-mismatched
right-hand side, the numpy broadcast error (no modeled path hits the
latter, so the two are not distinguished). -/
def arrSetE (a : Arr) (i : ℤ) (v : Sl) : Except PyErr Arr :=
  match a.set0 i v with
  | some r => .ok r
  | none => .error .indexError

def slSub (a b : Sl) : Except PyErr Sl :=
  match Sl.sub a b with
  | some v => .ok v
  | none => .error (.valueError "operands could not be broadcast together")

def slAdd (a b : Sl) : Except PyErr Sl :=
  match Sl.add a b with
  | some v => .ok v
  | none => .error (.valueError "operands could not be broadcast together")

/-- The assignment a[tbl[0][i]] = a[tbl[1][i]] (right-hand side read first,
as Python evaluates it). -/
def bcAssignArr (a : Arr) (tbl : List (List NpIndex)) (i : ℕ) : Except PyErr Arr := do
  let dst ← sliceAt tbl 0 i
  let src ← sliceAt tbl 1 i
  let v ← arrGet a src
  arrSetE a dst v

/-- The guarded temperature statement of each branch of
apply_boundary_conditions: if the temperature field is present, copy its
slice tbl[1][i] onto its slice tbl[0][i] (a single assignment; the
temperature never receives the second assignment the ordinary fields get). -/
def tempAssign (s : Sim) (tbl : List (List NpIndex)) (i : ℕ) : Except PyErr Sim :=
  match s.temperature with
  | none => .ok s
  | some t => do
      let d ← bcAssignArr t.data tbl i
      .ok { s with temperature := some { t with data := d } }

/-- The PERIODIC loop body for one field j on axis iteration i
(simulation.py lines 513-514 and 540-541). -/
def periodicFieldStep (i : ℕ) (s : Sim) (j : ℕ) : Except PyErr Sim := do
  let f ← getField s j
  let d1 ← bcAssignArr f.data periodic_slices_1 i
  let s ← setFieldData s j d1
  let f ← getField s j
  let d2 ← bcAssignArr f.data periodic_slices_2 i
  setFieldData s j d2

/-- The NEUMANN assignment data[tbl[0][i]] = data[tbl[1][i]] minus or plus
dx * bc[tbl[0][i]] (minus at the low edge, plus at the high edge). -/
def neumannAssign (a bc : Arr) (dx : ℚ) (tbl : List (List NpIndex)) (i : ℕ)
    (isAdd : Bool) : Except PyErr Arr := do
  let dst ← sliceAt tbl 0 i
  let src ← sliceAt tbl 1 i
  let interior ← arrGet a src
  let deriv ← arrGet bc dst
  let v ← if isAdd then slAdd interior (Sl.smul dx deriv)
          else slSub interior (Sl.smul dx deriv)
  arrSetE a dst v

/-- The NEUMANN loop body for one field j on axis iteration i
(simulation.py lines 522-523 and 546-547). -/
def neumannFieldStep (i : ℕ) (s : Sim) (j : ℕ) : Except PyErr Sim := do
  let f ← getField s j
  let bcrow ← getBCRow s j
  let d1 ← neumannAssign f.data bcrow s.dx neumann_slices_1 i false
  let s ← setFieldData s j d1
  let f ← getField s j
  let bcrow ← getBCRow s j
  let d2 ← neumannAssign f.data bcrow s.dx neumann_slices_2 i true
  setFieldData s j d2

/-- The DIRCHLET loop body for one field j on axis iteration i
(simulation.py lines 532-533 and 553-554): both edges are overwritten with
the stored boundary values, no arithmetic. -/
def dirchletFieldStep (i : ℕ) (s : Sim) (j : ℕ) : Except PyErr Sim := do
  let f ← getField s j
  let bcrow ← getBCRow s j
  let idx1 ← flatSliceAt dirchlet_slices_1 i
  let v1 ← arrGet bcrow idx1
  let d1 ← arrSetE f.data idx1 v1
  let s ← setFieldData s j d1
  let f ← getField s j
  let bcrow ← getBCRow s j
  let idx2 ← flatSliceAt dirchlet_slices_2 i
  let v2 ← arrGet bcrow idx2
  let d2 ← arrSetE f.data idx2 v2
  setFieldData s j d2

/-- One axis iteration of the PERIODIC branch (lines 510-514 / 537-541). -/
def periodicAxis (s : Sim) (i : ℕ) : Except PyErr Sim := do
  let s ← tempAssign s periodic_slices_1 i
  (List.range s.fields.length).foldlM (periodicFieldStep i) s

/-- One axis iteration of the NEUMANN branch (lines 519-523 / 543-547);
the temperature gets the plain copy with no derivative term. -/
def neumannAxis (s : Sim) (i : ℕ) : Except PyErr Sim := do
  let s ← tempAssign s neumann_slices_1 i
  (List.range s.fields.length).foldlM (neumannFieldStep i) s

/-- One axis iteration of the DIRCHLET branch (lines 528-533 / 549-554);
per the comment at lines 529 and 550, the temperature follows the NEUMANN
copy instead, identically in both branches. -/
def dirchletAxis (s : Sim) (i : ℕ) : Except PyErr Sim := do
  let s ← tempAssign s neumann_slices_1 i
  (List.range s.fields.length).foldlM (dirchletFieldStep i) s

/-- A uniform-policy branch: dims = len(self.fields[0].data.shape)
(IndexError on an empty field list), then the axis loop. -/
def uniformBranch (axis : Sim → ℕ → Except PyErr Sim) (s : Sim) : Except PyErr Sim :=
  match s.fields.head? with
  | none => .error .indexError
  | some f0 => (List.range f0.data.rank).foldlM axis s

/-- The per-entry dispatch of the final branch (lines 535-554): an entry
matching no policy token is silently skipped (the chain has no else). -/
def bcAxisBody (policy : String) (i : ℕ) (s : Sim) : Except PyErr Sim :=
  if policy = "PERIODIC" then periodicAxis s i
  else if policy = "NEUMANN" then neumannAxis s i
  else if policy = "DIRCHLET" then dirchletAxis s i
  else .ok s

/-- simulation.py lines 497-555.  The three uniform branches fire only on
the exact tokens PERIODIC, NEUMANN, DIRCHLET; anything else reaches the
final branch, which runs for i in range(len(...)) over the stored value:
entries of a list, the single characters of a string (each a one-character
string that matches no token), and a TypeError for the None default.
On the GPU backend the source calls ppf_gpu_utils.apply_boundary_conditions;
the module import at the top of simulation.py is wrapped in try/except and
fails in the modeled (pycalphad-free) environment, leaving the name unbound,
so that call raises NameError; no claim runs with uses_gpu true. -/
def apply_boundary_conditions (s : Sim) : Except PyErr Sim :=
  if s.uses_gpu then .error (.nameError "ppf_gpu_utils")
  else if s.boundary_conditions_type = .str "PERIODIC" then uniformBranch periodicAxis s
  else if s.boundary_conditions_type = .str "NEUMANN" then uniformBranch neumannAxis s
  else if s.boundary_conditions_type = .str "DIRCHLET" then uniformBranch dirchletAxis s
  else
    match s.boundary_conditions_type with
    | .noneBC => .error .typeError
    | .str tok =>
        ((tok.data.map Char.toString).enum).foldlM
          (fun s p => bcAxisBody p.2 p.1 s) s
    | .list l => (l.enum).foldlM (fun s p => bcAxisBody p.2 p.1 s) s

/-- simulation.py lines 300-324, excluding the GPU path.  The XDMF_FILE
branch ends, at line 321, in an assignment whose target is the call
self.temperature.get_cells(); CPython rejects assignment to a call at
compile time (SyntaxError: cannot assign to function call), so that branch
can never store its value, and is modeled as an error (the preceding
while-loop bracket advance at lines 313-320 is dead code behind it).  A
temperature type matching none of the elif tokens falls through to line
323, which raises ValueError for anything outside the four known tokens
and silently returns for NONE. -/
def update_temperature_field (s : Sim) : Except PyErr Sim :=
  if s.uses_gpu then .error (.nameError "ppf_gpu_utils")
  else if s.temperature_type = "ISOTHERMAL" then .ok s
  else if s.temperature_type = "LINEAR_GRADIENT" then
    match s.temperature with
    | none => .error (.attributeError "data")
    | some t =>
        .ok { s with temperature := some { t with data := Arr.addScalar (s.dTdt * s.dt) t.data } }
  else if s.temperature_type = "XDMF_FILE" then .error .syntaxError
  else if s.temperature_type ∈ (["ISOTHERMAL", "LINEAR_GRADIENT", "XDMF_FILE", "NONE"] : List String)
    then .ok s
  else .error (.valueError "Unknown temperature profile.")

/-- The module-level global names bound when simulation.py is loaded: those
its import statements and the class definition bind (the try/except import
of pycalphad and ppf_gpu_utils fails in the modeled environment and binds
nothing). -/
def moduleGlobals : List String :=
  ["np", "mio", "Field", "Path", "cm", "plt", "PowerNorm", "ppf_utils", "Simulation"]

/-- Python name resolution restricted to what the modeled methods need:
a bare name resolves iff it is a local or a module global. -/
def lookupName (localNames globalNames : List String) (n : String) : Bool :=
  localNames.contains n || globalNames.contains n

/-- Evaluating a bare name: NameError when it resolves nowhere. -/
def evalName (localNames globalNames : List String) (n : String) : Except PyErr Unit :=
  match lookupName localNames globalNames n with
  | true => .ok ()
  | false => .error (.nameError n)

/-- The local names of initialize_simulation (line 242): the method is
defined with a self parameter; framework is not among its locals. -/
def initSimLocals : List String := ["self"]

/-- The local names of init_boundary_conditions (line 94): the def has NO
self parameter, so when it is invoked as self.init_boundary_conditions()
the instance binds to boundary_conditions, and the later assignments bind
dim and i; self is not a local. -/
def initBCLocals : List String := ["boundary_conditions", "dim", "i"]

/-- The local names of init_temperature_field (line 113): the def has NO
self parameter; the instance binds to temperature_type and later
assignments bind the array variables; self is not a local. -/
def initTempLocals : List String :=
  ["temperature_type", "array", "x_length", "x_t_array", "y_length", "y_t_array",
   "z_length", "z_t_array", "t_field", "dt", "step", "reader", "points", "cells",
   "point_data0", "cell_data0", "point_data1"]

/-- The body of init_temperature_field (simulation.py lines 113-159) as it
would execute with self bound to the instance (the missing self binding
itself is modeled in init_temperature_field below).  The dispatch has no
else branch: a temperature type matching no token does nothing.  The
LINEAR_GRADIENT branch cannot complete: its ramp construction (lines
124-137) requires dx = 1 to broadcast at all, and line 138 then reads the
bare name dTdt, which is bound neither locally nor in module scope; the
branch is modeled by that NameError (no claim depends on which of the
errors surfaces first).  The XDMF_FILE branch likewise cannot complete:
its while condition at line 151 reads self._t_file_end, an attribute that
is never assigned, raising AttributeError after the initial file reads. -/
def init_temperature_field_body (s : Sim) : Except PyErr Sim :=
  if s.temperature_type = "NONE" then .ok s
  else if s.temperature_type = "ISOTHERMAL" then
    match npZeros s.dimensions with
    | none => .error (.unmodeled "ndarray of rank outside 1..3")
    | some z =>
        match s.initial_T with
        | none => .error .typeError
        | some t0 =>
            .ok { s with
              temperature := some ⟨"Temperature (" ++ s.temperature_units ++ ")",
                                   Arr.addScalar t0 z⟩ }
  else if s.temperature_type = "LINEAR_GRADIENT" then .error (.nameError "dTdt")
  else if s.temperature_type = "XDMF_FILE" then .error (.attributeError "_t_file_end")
  else .ok s

/-- Calling self.init_temperature_field() (line 247 calls line 113): the
def lacks a self parameter, so self is a free name inside the body; the
first expression executed, self._temperature_type at line 114, raises
NameError before any branch runs. -/
def init_temperature_field (s : Sim) : Except PyErr Sim := do
  let _ ← evalName initTempLocals moduleGlobals "self"
  init_temperature_field_body s

/-- The body of init_boundary_conditions (simulation.py lines 94-110) as it
would execute with self bound: pad every declared dimension by 2, prepend
the field count, allocate the zero boundary-value array, and apply the
(default) boundary conditions once. -/
def init_boundary_conditions_body (s : Sim) : Except PyErr Sim := do
  match npZeros (s.dimensions.map (fun n => n + 2)) with
  | none => .error (.unmodeled "ndarray of rank outside 1..3")
  | some row =>
      let s := { s with boundary_conditions_array := List.replicate s.fields.length row }
      apply_boundary_conditions s

/-- Calling self.init_boundary_conditions() (line 246 calls line 94): the
def lacks a self parameter, so self is a free name; the first expression,
self.dimensions.copy() at line 104, raises NameError. -/
def init_boundary_conditions (s : Sim) : Except PyErr Sim := do
  let _ ← evalName initBCLocals moduleGlobals "self"
  init_boundary_conditions_body s

/-- simulation.py lines 161-163: init_tdb_params returns immediately when
no tdb path is set; otherwise it requires pycalphad, which is unavailable
in the modeled environment, raising ImportError at line 166. -/
def init_tdb_params (s : Sim) : Except PyErr Sim :=
  match s.tdb_path with
  | none => .ok s
  | some _ => .error .importError

/-- simulation.py lines 557-560: send_fields_to_GPU is a no-op when numba
is unavailable, as in the modeled environment. -/
def send_fields_to_GPU (s : Sim) : Except PyErr Sim := .ok s

/-- simulation.py lines 242-250.  The first statement, line 243, compares
the bare name framework against "GPU_SERIAL"; framework is neither a local
of the method (whose only parameter is self) nor a module global, so the
comparison raises NameError and nothing after it can run. -/
def initialize_simulation (s : Sim) : Except PyErr Sim := do
  let _ ← evalName initSimLocals moduleGlobals "framework"
  let s ← init_boundary_conditions s
  let s ← init_temperature_field s
  let s ← init_tdb_params s
  if s.uses_gpu then send_fields_to_GPU s else .ok s

/-- simulation.py lines 252-253: the base-class engine step is pass. -/
def simulation_loop (s : Sim) : Except PyErr Sim := .ok s

/-- Insertion into a Python dict: a repeated key keeps its position and has
its value overwritten; a new key is appended. -/
def dictInsert (d : List (String × Arr)) (k : String) (v : Arr) : List (String × Arr) :=
  if d.any (fun kv => kv.1 = k) then d.map (fun kv => if kv.1 = k then (k, v) else kv)
  else d ++ [(k, v)]

/-- simulation.py lines 393-414.  The save dict maps each field name to its
data (lines 399-402).  A falsy save path reaches line 406, which reads
self._engine, an attribute nothing ever assigns: AttributeError.  The file
name interpolates self._time_step_counter (line 413) - the underscore
attribute that only load_simulation ever assigns, NOT the
self.time_step_counter that __init__ and simulate maintain - so the read
raises AttributeError whenever no load has run; np.savez appends the .npz
suffix, and writing replaces any file of the same name. -/
def save_simulation (s : Sim) : Except PyErr Sim :=
  let save_dict := s.fields.foldl (fun d f => dictInsert d f.name f.data) []
  match s.save_path with
  | none => .error (.attributeError "_engine")
  | some p =>
      if p = "" then .error (.attributeError "_engine")
      else
        match s.underscore_time_step_counter with
        | none => .error (.attributeError "_time_step_counter")
        | some n =>
            let fname := p ++ "/step_" ++ toString n ++ ".npz"
            .ok { s with saved_files :=
              (s.saved_files.filter (fun kv => kv.1 ≠ fname)) ++ [(fname, save_dict)] }

/-- Whether the second character list starts with the first. -/
def leadingChars : List Char → List Char → Bool
  | [], _ => true
  | _ :: _, [] => false
  | a :: t1, b :: t2 => if a = b then leadingChars t1 t2 else false

/-- Character-list split on a separator character. -/
def splitOnChar (c : Char) : List Char → List (List Char)
  | [] => [[]]
  | x :: t =>
      match splitOnChar c t with
      | [] => [[x]]
      | h :: r => if x = c then [] :: h :: r else (x :: h) :: r

/-- Interleave a separator character between segments. -/
def joinWithChar (c : Char) : List (List Char) → List Char
  | [] => []
  | [x] => x
  | x :: y :: t => x ++ c :: joinWithChar c (y :: t)

/-- First value stored under a key in the modeled file system. -/
def fsLookup (files : List (String × List (String × Arr))) (p : String) :
    Option (List (String × Arr)) :=
  match files with
  | [] => none
  | kv :: t => if kv.1 = p then some kv.2 else fsLookup t p

/-- A path names a directory in the modeled file system iff some saved file
lives strictly below it. -/
def isDirModel (s : Sim) (p : String) : Bool :=
  s.saved_files.any (fun kv => leadingChars (p ++ "/").data kv.1.data)

/-- Path existence in the modeled file system: a saved file or a directory
holding one.  Resolution against the working directory (the cwd joins of
lines 342-346) is file-system behavior outside the model: a path stands
for itself. -/
def pathExists (s : Sim) (p : String) : Bool :=
  isDirModel s p || s.saved_files.any (fun kv => kv.1 = p)

/-- str(Path(p).parent): the components before the final slash. -/
def parentDir (p : String) : String :=
  let parts := splitOnChar '/' p.data
  if parts.length ≤ 1 then "." else ⟨joinWithChar '/' parts.dropLast⟩

/-- Path(p).stem: the final component with its last extension dropped. -/
def pathStem (p : String) : String :=
  let base := (splitOnChar '/' p.data).getLastD p.data
  let parts := splitOnChar '.' base
  if parts.length ≤ 1 then ⟨base⟩ else ⟨joinWithChar '.' parts.dropLast⟩

/-- str.find as a list-of-characters scan: first match index, or -1. -/
def findSubFrom (pat : List Char) : List Char → ℕ → ℤ
  | [], i => if pat = [] then (i : ℤ) else -1
  | c :: t, i => if leadingChars pat (c :: t) then (i : ℤ) else findSubFrom pat t (i + 1)

def pyFind (hay pat : String) : ℤ := findSubFrom pat.data hay.data 0

/-- int() applied to a string of digits; empty input is Python ValueError. -/
def parseIntDigits : List Char → Option ℤ
  | [] => none
  | l => some ((l.foldl (fun acc c => acc * 10 + (c.toNat - ('0').toNat)) 0 : ℕ) : ℤ)

/-- simulation.py lines 326-391.  Clears the field list, resolves the path
(cwd resolution abstracted as above; note line 345 joins the save path and
raises TypeError when it is None), joins step_<step>.npz when given a
directory plus a step, propagates a missing save path, loads the archive
and rebuilds self.fields from its name-to-array entries (line 366 passes
the archive key as the Field name), and then assigns the parsed or given
step to self._time_step_counter (lines 377-384) - the underscore attribute,
leaving self.time_step_counter, the counter simulate uses, untouched.  The
trailing-digit parse replicates lines 374-382: find returns -1 when step_
is absent, so step_start_index is then 4 and the == -1 test at line 376
can never fire; int of an empty digit slice is a ValueError.  A
LINEAR_GRADIENT temperature is then shifted by counter * dTdt * dt (line
388) and an XDMF_FILE temperature goes through update_temperature_field. -/
def load_simulation (s0 : Sim) (file_path : Option String) (step : ℤ) : Except PyErr Sim := do
  let s := { s0 with fields := [] }
  let fp0 ← match file_path with
    | some p => pure p
    | none => match s.save_path with
      | some p => pure p
      | none => .error (.valueError "Simulation needs a path to load data from!")
  let fp ← if pathExists s fp0 then pure fp0
    else match s.save_path with
      | none => .error .typeError
      | some sp => pure (if pathExists s (sp ++ "/" ++ fp0) then sp ++ "/" ++ fp0 else fp0)
  let fp ← if isDirModel s fp then
      if step > -1 then pure (fp ++ "/step_" ++ toString step ++ ".npz")
      else .error (.valueError "Given path is a folder, must specify a timestep!")
    else pure fp
  let s := match s.save_path with
    | none => { s with save_path := some (parentDir fp) }
    | some _ => s
  let dict ← match fsLookup s.saved_files fp with
    | some d => pure d
    | none => .error .fileNotFoundError
  let s := { s with fields := dict.map (fun (kv : String × Arr) => (⟨kv.1, kv.2⟩ : Field)) }
  let _ ← match s.fields.head? with
    | some f => pure f
    | none => .error .indexError
  let s ← if step < 0 then
      let filename := pathStem fp
      let start : ℤ := pyFind filename "step_" + 5
      if start = -1 then pure { s with underscore_time_step_counter := some 0 }
      else
        match parseIntDigits ((filename.data.drop start.toNat).takeWhile Char.isDigit) with
        | some n => pure { s with underscore_time_step_counter := some n }
        | none => .error (.valueError "invalid literal for int() with base 10")
    else pure { s with underscore_time_step_counter := some step }
  let s ← if s.temperature_type = "LINEAR_GRADIENT" then
      match s.temperature, s.underscore_time_step_counter with
      | some t, some n =>
          pure { s with
            temperature := some ⟨t.name, Arr.addScalar ((n : ℚ) * s.dTdt * s.dt) t.data⟩ }
      | none, _ => .error (.attributeError "data")
      | some _, none => .error (.attributeError "_time_step_counter")
    else pure s
  if s.temperature_type = "XDMF_FILE" then update_temperature_field s else pure s

/-- One iteration of the simulate loop (simulation.py lines 229-238):
increment the counter, engine step, temperature update, boundary
conditions, and - when autosave is on and the counter divides evenly by the
rate - a checkpoint save (preceded on the GPU backend by a retrieve through
the unbound ppf_gpu_utils).  A None rate is a TypeError, a zero rate a
ZeroDivisionError, at the modulo of line 235.  The events appended here are
the ghost invocation trace. -/
def simulateStep (s : Sim) : Except PyErr Sim := do
  let n := s.time_step_counter + 1
  let s ← simulation_loop
    { s with time_step_counter := n, events := s.events ++ [.incr n, .engineStep n] }
  let s ← update_temperature_field { s with events := s.events ++ [.tempUpdate n] }
  let s ← apply_boundary_conditions { s with events := s.events ++ [.bcApply n] }
  if s.autosave_flag then
    match s.autosave_rate with
    | none => .error .typeError
    | some r =>
        if r = 0 then .error .zeroDivisionError
        else if s.time_step_counter % r = 0 then do
          let s ← if s.uses_gpu then .error (PyErr.nameError "ppf_gpu_utils") else pure s
          save_simulation { s with events := s.events ++ [.checkpoint s.time_step_counter] }
        else .ok s
  else .ok s

/-- simulation.py lines 212-240: lazy initialization on the first call,
then the loop of simulateStep, then the optional request to re-initialize
on the NEXT call. -/
def simulate (s : Sim) (number_of_timesteps : ℕ) (reset : Bool) : Except PyErr Sim := do
  let s ← if s.requires_initialization then do
      let s ← initialize_simulation s
      pure { s with requires_initialization := false }
    else pure s
  let s ← (List.range number_of_timesteps).foldlM (fun s _ => simulateStep s) s
  if reset then pure { s with requires_initialization := true } else pure s

/-- Repeated calls to update_temperature_field (used to state the claims
about the per-step temperature evolution). -/
def updateIter (s : Sim) : ℕ → Except PyErr Sim
  | 0 => .ok s
  | k + 1 => (update_temperature_field s).bind (fun s1 => updateIter s1 k)

/-- The pointwise linear interpolation of the XDMF_FILE update: the
right-hand side of simulation.py line 321 (and identically line 157),
lower*(ub - t)/(ub - lb) + upper*(t - lb)/(ub - lb), at one array entry. -/
def interpS (a b lb ub t : ℚ) : ℚ :=
  a * (ub - t) / (ub - lb) + b * (t - lb) / (ub - lb)

/-- The interpolation of line 321 lifted elementwise over the two cached
bracket arrays (the array-scalar products and the array sum of the source
act elementwise on same-shape arrays). -/
def xdmf_interpolation (lower upper : Arr) (lb ub t : ℚ) : Option Arr :=
  Arr.zipPure (fun a b => interpS a b lb ub t) lower upper

/-- Whether the step at counter value n performs an autosave. -/
def savesAt (flag : Bool) (rate : Option ℤ) (n : ℤ) : Bool :=
  flag && match rate with
    | none => false
    | some r => (!(r == 0)) && (n % r == 0)

/-- The ghost trace of one step at counter value n. -/
def stepEvents (flag : Bool) (rate : Option ℤ) (n : ℤ) : List Ev :=
  [.incr n, .engineStep n, .tempUpdate n, .bcApply n] ++
    (if savesAt flag rate n then [.checkpoint n] else [])

/-- The ghost trace of N steps starting from counter value c. -/
def simTrace (flag : Bool) (rate : Option ℤ) (c : ℤ) : ℕ → List Ev
  | 0 => []
  | k + 1 => simTrace flag rate c k ++ stepEvents flag rate (c + k + 1)

/-! Helper lemmas about the Except monad and the step operations. -/

theorem bind_ok {α β : Type} {x : Except PyErr α} {g : α → Except PyErr β} {r : β}
    (h : x >>= g = .ok r) : ∃ a, x = .ok a ∧ g a = .ok r := by
  cases x with
  | error e => simp [Bind.bind, Except.bind] at h
  | ok a => exact ⟨a, rfl, by simpa [Bind.bind, Except.bind] using h⟩

/-- The state components that no boundary, temperature or save operation
touches: the counter, the ghost trace, the autosave configuration and the
backend flag. -/
def Pres (s t : Sim) : Prop :=
  t.time_step_counter = s.time_step_counter ∧ t.events = s.events ∧
  t.autosave_flag = s.autosave_flag ∧ t.autosave_rate = s.autosave_rate ∧
  t.uses_gpu = s.uses_gpu

theorem pres_refl (s : Sim) : Pres s s := ⟨rfl, rfl, rfl, rfl, rfl⟩

theorem pres_trans {a b c : Sim} (h1 : Pres a b) (h2 : Pres b c) : Pres a c := by
  obtain ⟨p1, p2, p3, p4, p5⟩ := h1
  obtain ⟨q1, q2, q3, q4, q5⟩ := h2
  exact ⟨q1.trans p1, q2.trans p2, q3.trans p3, q4.trans p4, q5.trans p5⟩

theorem foldlM_ok_pres {α : Type} {P : Sim → Sim → Prop}
    (hrefl : ∀ s, P s s) (htrans : ∀ a b c, P a b → P b c → P a c)
    (f : Sim → α → Except PyErr Sim)
    (hf : ∀ s a s', f s a = .ok s' → P s s') :
    ∀ (l : List α) (s s'), List.foldlM f s l = .ok s' → P s s' := by
  intro l
  induction l with
  | nil =>
      intro s s' h
      rw [List.foldlM_nil] at h
      rw [show (pure s : Except PyErr Sim) = .ok s from rfl] at h
      cases h
      exact hrefl s
  | cons a t ih =>
      intro s s' h
      rw [List.foldlM_cons] at h
      obtain ⟨s1, h1, h2⟩ := bind_ok h
      exact htrans _ _ _ (hf _ _ _ h1) (ih _ _ h2)

theorem setFieldData_pres {s : Sim} {j : ℕ} {d : Arr} {s' : Sim}
    (h : setFieldData s j d = .ok s') : Pres s s' := by
  unfold setFieldData at h
  cases hg : s.fields.get? j with
  | none => rw [hg] at h; simp at h
  | some f => rw [hg] at h; cases h; exact ⟨rfl, rfl, rfl, rfl, rfl⟩

theorem tempAssign_pres {s : Sim} {tbl : List (List NpIndex)} {i : ℕ} {s' : Sim}
    (h : tempAssign s tbl i = .ok s') : Pres s s' := by
  unfold tempAssign at h
  cases ht : s.temperature with
  | none => rw [ht] at h; cases h; exact pres_refl _
  | some t =>
      rw [ht] at h
      obtain ⟨d, hd, h⟩ := bind_ok h
      cases h
      exact ⟨rfl, rfl, rfl, rfl, rfl⟩

theorem periodicFieldStep_pres {i : ℕ} {s : Sim} {j : ℕ} {s' : Sim}
    (h : periodicFieldStep i s j = .ok s') : Pres s s' := by
  unfold periodicFieldStep at h
  obtain ⟨f, hf1, h⟩ := bind_ok h
  obtain ⟨d1, hd1, h⟩ := bind_ok h
  obtain ⟨s1, hs1, h⟩ := bind_ok h
  obtain ⟨f2, hf2, h⟩ := bind_ok h
  obtain ⟨d2, hd2, h⟩ := bind_ok h
  exact pres_trans (setFieldData_pres hs1) (setFieldData_pres h)

theorem neumannFieldStep_pres {i : ℕ} {s : Sim} {j : ℕ} {s' : Sim}
    (h : neumannFieldStep i s j = .ok s') : Pres s s' := by
  unfold neumannFieldStep at h
  obtain ⟨f, hf1, h⟩ := bind_ok h
  obtain ⟨b1, hb1, h⟩ := bind_ok h
  obtain ⟨d1, hd1, h⟩ := bind_ok h
  obtain ⟨s1, hs1, h⟩ := bind_ok h
  obtain ⟨f2, hf2, h⟩ := bind_ok h
  obtain ⟨b2, hb2, h⟩ := bind_ok h
  obtain ⟨d2, hd2, h⟩ := bind_ok h
  exact pres_trans (setFieldData_pres hs1) (setFieldData_pres h)

theorem dirchletFieldStep_pres {i : ℕ} {s : Sim} {j : ℕ} {s' : Sim}
    (h : dirchletFieldStep i s j = .ok s') : Pres s s' := by
  unfold dirchletFieldStep at h
  obtain ⟨f, hf1, h⟩ := bind_ok h
  obtain ⟨b1, hb1, h⟩ := bind_ok h
  obtain ⟨i1, hi1, h⟩ := bind_ok h
  obtain ⟨v1, hv1, h⟩ := bind_ok h
  obtain ⟨d1, hd1, h⟩ := bind_ok h
  obtain ⟨s1, hs1, h⟩ := bind_ok h
  obtain ⟨f2, hf2, h⟩ := bind_ok h
  obtain ⟨b2, hb2, h⟩ := bind_ok h
  obtain ⟨i2, hi2, h⟩ := bind_ok h
  obtain ⟨v2, hv2, h⟩ := bind_ok h
  obtain ⟨d2, hd2, h⟩ := bind_ok h
  exact pres_trans (setFieldData_pres hs1) (setFieldData_pres h)

theorem periodicAxis_pres {s : Sim} {i : ℕ} {s' : Sim}
    (h : periodicAxis s i = .ok s') : Pres s s' := by
  unfold periodicAxis at h
  obtain ⟨s1, hs1, h⟩ := bind_ok h
  exact pres_trans (tempAssign_pres hs1)
    (foldlM_ok_pres pres_refl (fun _ _ _ => pres_trans) _
      (fun _ _ _ hh => periodicFieldStep_pres hh) _ _ _ h)

theorem neumannAxis_pres {s : Sim} {i : ℕ} {s' : Sim}
    (h : neumannAxis s i = .ok s') : Pres s s' := by
  unfold neumannAxis at h
  obtain ⟨s1, hs1, h⟩ := bind_ok h
  exact pres_trans (tempAssign_pres hs1)
    (foldlM_ok_pres pres_refl (fun _ _ _ => pres_trans) _
      (fun _ _ _ hh => neumannFieldStep_pres hh) _ _ _ h)

theorem dirchletAxis_pres {s : Sim} {i : ℕ} {s' : Sim}
    (h : dirchletAxis s i = .ok s') : Pres s s' := by
  unfold dirchletAxis at h
  obtain ⟨s1, hs1, h⟩ := bind_ok h
  exact pres_trans (tempAssign_pres hs1)
    (foldlM_ok_pres pres_refl (fun _ _ _ => pres_trans) _
      (fun _ _ _ hh => dirchletFieldStep_pres hh) _ _ _ h)

theorem bcAxisBody_pres {p : String} {i : ℕ} {s s' : Sim}
    (h : bcAxisBody p i s = .ok s') : Pres s s' := by
  unfold bcAxisBody at h
  split_ifs at h
  · exact periodicAxis_pres h
  · exact neumannAxis_pres h
  · exact dirchletAxis_pres h
  · cases h; exact pres_refl _

theorem uniformBranch_pres (axis : Sim → ℕ → Except PyErr Sim)
    (hax : ∀ s i s', axis s i = .ok s' → Pres s s') {s s' : Sim}
    (h : uniformBranch axis s = .ok s') : Pres s s' := by
  unfold uniformBranch at h
  cases hh : s.fields.head? with
  | none => rw [hh] at h; simp at h
  | some f0 =>
      rw [hh] at h
      exact foldlM_ok_pres pres_refl (fun _ _ _ => pres_trans) _ hax _ _ _ h

theorem apply_boundary_conditions_pres {s s' : Sim}
    (h : apply_boundary_conditions s = .ok s') : Pres s s' := by
  unfold apply_boundary_conditions at h
  split_ifs at h
  all_goals
    first
    | simp at h
    | exact uniformBranch_pres periodicAxis (fun _ _ _ hh => periodicAxis_pres hh) h
    | exact uniformBranch_pres neumannAxis (fun _ _ _ hh => neumannAxis_pres hh) h
    | exact uniformBranch_pres dirchletAxis (fun _ _ _ hh => dirchletAxis_pres hh) h
    | (cases hb : s.boundary_conditions_type with
       | noneBC => rw [hb] at h; simp at h
       | str tok =>
           rw [hb] at h
           exact foldlM_ok_pres pres_refl (fun _ _ _ => pres_trans) _
             (fun _ _ _ hh => bcAxisBody_pres hh) _ _ _ h
       | list l =>
           rw [hb] at h
           exact foldlM_ok_pres pres_refl (fun _ _ _ => pres_trans) _
             (fun _ _ _ hh => bcAxisBody_pres hh) _ _ _ h)

theorem update_temperature_field_pres {s s' : Sim}
    (h : update_temperature_field s = .ok s') : Pres s s' := by
  unfold update_temperature_field at h
  split_ifs at h
  all_goals
    first
    | (cases h <;> exact pres_refl _)
    | (cases ht : s.temperature with
       | none => rw [ht] at h; cases h
       | some t => rw [ht] at h; cases h; exact ⟨rfl, rfl, rfl, rfl, rfl⟩)

theorem save_simulation_pres {s s' : Sim}
    (h : save_simulation s = .ok s') : Pres s s' := by
  unfold save_simulation at h
  cases hp : s.save_path with
  | none => simp [hp] at h
  | some p =>
      by_cases he : p = ""
      · simp [hp, he] at h
      · cases hu : s.underscore_time_step_counter with
        | none => simp [hp, he, hu] at h
        | some n =>
            simp only [hp, hu, if_neg he, Except.ok.injEq] at h
            subst h
            exact ⟨rfl, rfl, rfl, rfl, rfl⟩

theorem simulateStep_ok {s s' : Sim} (h : simulateStep s = .ok s') :
    s'.time_step_counter = s.time_step_counter + 1 ∧
    s'.autosave_flag = s.autosave_flag ∧
    s'.autosave_rate = s.autosave_rate ∧
    s'.uses_gpu = s.uses_gpu ∧
    s'.events = s.events ++ stepEvents s.autosave_flag s.autosave_rate (s.time_step_counter + 1) := by
  unfold simulateStep at h
  obtain ⟨s1, h1, h⟩ := bind_ok h
  unfold simulation_loop at h1
  cases h1
  obtain ⟨s2, h2, h⟩ := bind_ok h
  obtain ⟨pc2, pe2, pf2, pr2, pg2⟩ := update_temperature_field_pres h2
  simp only at pc2 pe2 pf2 pr2 pg2
  obtain ⟨s3, h3, h⟩ := bind_ok h
  obtain ⟨pc3, pe3, pf3, pr3, pg3⟩ := apply_boundary_conditions_pres h3
  simp only at pc3 pe3 pf3 pr3 pg3
  have hc3 : s3.time_step_counter = s.time_step_counter + 1 := by rw [pc3, pc2]
  have hf3 : s3.autosave_flag = s.autosave_flag := by rw [pf3, pf2]
  have hr3 : s3.autosave_rate = s.autosave_rate := by rw [pr3, pr2]
  have hg3 : s3.uses_gpu = s.uses_gpu := by rw [pg3, pg2]
  have he3 : s3.events = s.events ++
      [.incr (s.time_step_counter + 1), .engineStep (s.time_step_counter + 1),
       .tempUpdate (s.time_step_counter + 1), .bcApply (s.time_step_counter + 1)] := by
    rw [pe3, pe2]; simp
  cases hfl : s3.autosave_flag with
  | false =>
      have hsf : s.autosave_flag = false := hf3.symm.trans hfl
      rw [hfl] at h
      simp only [Bool.false_eq_true, if_false, Except.ok.injEq] at h
      subst h
      refine ⟨hc3, hf3, hr3, hg3, ?_⟩
      rw [he3]
      simp [stepEvents, savesAt, hsf]
  | true =>
      have hsf : s.autosave_flag = true := hf3.symm.trans hfl
      rw [hfl] at h
      simp only [if_true] at h
      cases hra : s3.autosave_rate with
      | none => rw [hra] at h; simp at h
      | some r =>
          have hsr : s.autosave_rate = some r := hr3.symm.trans hra
          rw [hra] at h
          simp only at h
          by_cases hr0 : r = 0
          · rw [if_pos hr0] at h; simp at h
          · rw [if_neg hr0] at h
            by_cases hm : s3.time_step_counter % r = 0
            · rw [if_pos hm] at h
              have hmc : (s.time_step_counter + 1) % r = 0 := by rw [← hc3]; exact hm
              cases hgp : s3.uses_gpu with
              | true =>
                  rw [hgp] at h
                  simp only [if_true] at h
                  obtain ⟨y, hy, -⟩ := bind_ok h
                  cases hy
              | false =>
                  rw [hgp] at h
                  simp only [Bool.false_eq_true, if_false, pure_bind] at h
                  obtain ⟨qc, qe, qf, qr, qg⟩ := save_simulation_pres h
                  simp only at qc qe qf qr qg
                  refine ⟨qc.trans hc3, qf.trans hf3, qr.trans hr3, qg.trans hg3, ?_⟩
                  rw [qe, he3, hc3]
                  simp [stepEvents, savesAt, hsf, hsr, hr0, hmc]
            · rw [if_neg hm] at h
              have hmc : ¬((s.time_step_counter + 1) % r = 0) := by rw [← hc3]; exact hm
              simp only [Except.ok.injEq] at h
              subst h
              refine ⟨hc3, hf3, hr3, hg3, ?_⟩
              rw [he3]
              simp [stepEvents, savesAt, hsf, hsr, hr0, hmc]

theorem simulateLoop_ok : ∀ (N : ℕ) (s s' : Sim),
    (List.range N).foldlM (fun s _ => simulateStep s) s = .ok s' →
    s'.time_step_counter = s.time_step_counter + N ∧
    s'.autosave_flag = s.autosave_flag ∧
    s'.autosave_rate = s.autosave_rate ∧
    s'.events = s.events ++ simTrace s.autosave_flag s.autosave_rate s.time_step_counter N := by
  intro N
  induction N with
  | zero =>
      intro s s' h
      rw [List.range_zero, List.foldlM_nil] at h
      rw [show (pure s : Except PyErr Sim) = .ok s from rfl] at h
      cases h
      exact ⟨by simp, rfl, rfl, by simp [simTrace]⟩
  | succ N ih =>
      intro s s' h
      rw [List.range_succ, List.foldlM_append] at h
      obtain ⟨s1, h1, h2⟩ := bind_ok h
      obtain ⟨ic, iflag, irate, iev⟩ := ih s s1 h1
      rw [List.foldlM_cons] at h2
      obtain ⟨s2, h3, h4⟩ := bind_ok h2
      rw [List.foldlM_nil] at h4
      rw [show (pure s2 : Except PyErr Sim) = .ok s2 from rfl] at h4
      cases h4
      obtain ⟨sc, sflag, srate, sgpu, sev⟩ := simulateStep_ok h3
      refine ⟨?_, sflag.trans iflag, srate.trans irate, ?_⟩
      · rw [sc, ic]; push_cast; ring
      · rw [sev, iev, iflag, irate, ic]
        simp [simTrace, List.append_assoc]

instance : DecidableEq (Except PyErr Sim) := fun a b =>
  match a, b with
  | .ok x, .ok y =>
      if h : x = y then .isTrue (by rw [h]) else .isFalse (fun hh => h (Except.ok.inj hh))
  | .error e, .error f =>
      if h : e = f then .isTrue (by rw [h]) else .isFalse (fun hh => h (Except.error.inj hh))
  | .ok _, .error _ => .isFalse (fun hh => Except.noConfusion hh)
  | .error _, .ok _ => .isFalse (fun hh => Except.noConfusion hh)

/-! Concrete states used by witnesses and counterexamples.  sim0 mirrors a
freshly constructed Simulation(dimensions=[4]) with dx = dt = 1 supplied. -/

def sim0 : Sim := {
  fields := [], temperature := none, boundary_conditions_type := .noneBC,
  boundary_conditions_array := [], dx := 1, dt := 1, dTdt := 0, initial_T := none,
  temperature_units := "K", temperature_type := "NONE", dimensions := [4],
  time_step_counter := 0, underscore_time_step_counter := none,
  requires_initialization := true, uses_gpu := false, autosave_flag := false,
  autosave_rate := none, save_path := none, tdb_path := none, saved_files := [], events := [] }

/-- An initialized simulation with autosave on (rate 1): one field, PERIODIC
boundaries, no temperature field, and - as for every simulation that has
never gone through load_simulation - the attribute _time_step_counter
unbound. -/
def simC1x : Sim := { sim0 with
  requires_initialization := false,
  fields := [⟨"phi", .r1 [1, 2, 3, 4]⟩], boundary_conditions_type := .str "PERIODIC",
  autosave_flag := true, autosave_rate := some 1, save_path := some "data" }

/-- The same simulation with autosave off. -/
def simC1w : Sim := { simC1x with autosave_flag := false }

/-- The state simulate(2) produces from simC1w. -/
def simC1wRes : Sim := { simC1w with
  time_step_counter := 2,
  fields := [⟨"phi", .r1 [3, 2, 3, 2]⟩],
  events := [.incr 1, .engineStep 1, .tempUpdate 1, .bcApply 1,
             .incr 2, .engineStep 2, .tempUpdate 2, .bcApply 2] }

/-- Claim C1, as stated, fails on the code: on this initialized simulation
with autosave enabled (rate 1), simulate(2) does not finish with the
counter at previous + 2 - the first checkpoint save reads the unbound
attribute _time_step_counter and the loop aborts with AttributeError after
one completed step. -/
theorem simulate_autosave_abort_cex :
    simulate simC1x 2 false = .error (.attributeError "_time_step_counter") := by
  rfl

/-- Claim C1 (amended): on an initialized simulation, whenever simulate(N)
returns normally, the counter was incremented exactly once per step before
the work of that step, each step ran engine step, temperature update,
boundary application and then the conditional checkpoint save in that
order (witnessed by the ghost trace), and the final counter is the
previous value plus N; a step operation that raises instead aborts the
loop early (see the counterexample). -/
theorem simulate_counter_and_order (s s' : Sim) (N : ℕ)
    (hinit : s.requires_initialization = false)
    (h : simulate s N false = .ok s') :
    s'.time_step_counter = s.time_step_counter + N ∧
    s'.events = s.events ++ simTrace s.autosave_flag s.autosave_rate s.time_step_counter N := by
  unfold simulate at h
  rw [hinit] at h
  obtain ⟨s1, h1, h2⟩ := bind_ok h
  have h1e : (Except.ok s : Except PyErr Sim) = .ok s1 := h1
  cases h1e
  obtain ⟨s2, h3, h4⟩ := bind_ok h2
  have h4e : (Except.ok s2 : Except PyErr Sim) = .ok s' := h4
  cases h4e
  obtain ⟨ic, -, -, iev⟩ := simulateLoop_ok N s s' h3
  exact ⟨ic, iev⟩

/-- Witness for the amended claim C1 at a concrete initialized input. -/
theorem simulate_counter_and_order_w :
    simC1wRes.time_step_counter = simC1w.time_step_counter + 2 ∧
    simC1wRes.events = simC1w.events ++
      simTrace simC1w.autosave_flag simC1w.autosave_rate simC1w.time_step_counter 2 :=
  simulate_counter_and_order simC1w simC1wRes 2 rfl (by rfl)

/-! Claim C2: checkpoint save and load. -/

/-- A simulation that has simulated to counter 5 but never loaded, so the
attribute _time_step_counter is unbound. -/
def simC2a : Sim := { sim0 with
  fields := [⟨"phi", .r1 [1, 2, 3]⟩], save_path := some "data",
  time_step_counter := 5, requires_initialization := false }

/-- The same simulation after something set _time_step_counter to 7 (only
load_simulation ever assigns it), while the simulate counter is still 5. -/
def simC2b : Sim := { simC2a with underscore_time_step_counter := some 7 }

/-- A fresh simulation whose save directory holds a step-5 checkpoint with
one field phi. -/
def simC2c : Sim := { sim0 with
  fields := [⟨"old", .r1 [0]⟩], save_path := some "data",
  saved_files := [("data/step_5.npz", [("phi", .r1 [9, 8, 7])])],
  requires_initialization := false }

/-- Claim C2: the checkpoint file name and the restored counter use the
attribute _time_step_counter, not the time_step_counter that simulate
maintains.  At counter 5 with the attribute unbound, save_simulation raises
AttributeError instead of writing step_5; with the attribute at 7 it writes
step_7 although the simulate counter is 5; and loading step 5 reproduces
the field names and data but leaves the simulate counter unchanged (it sets
only the underscore attribute). -/
theorem checkpoint_counter_attribute_bug :
    save_simulation simC2a = .error (.attributeError "_time_step_counter") ∧
    save_simulation simC2b = .ok { simC2b with
      saved_files := [("data/step_7.npz", [("phi", .r1 [1, 2, 3])])] } ∧
    load_simulation simC2c (some "data") 5 = .ok { simC2c with
      fields := [⟨"phi", .r1 [9, 8, 7]⟩], underscore_time_step_counter := some 5 } :=
  ⟨rfl, rfl, by decide⟩

/-! Claim C3: unrecognized boundary-policy tokens. -/

/-- A simulation whose uniform boundary token is the spelling DIRICHLET -
which the source, recognizing only DIRCHLET, does not know. -/
def simC3 : Sim := { sim0 with
  requires_initialization := false,
  boundary_conditions_type := .str "DIRICHLET", fields := [⟨"phi", .r1 [1, 2, 3, 4]⟩] }

/-- Claim C3, as stated, fails on the code: the unrecognized uniform token
DIRICHLET raises no error at all - apply_boundary_conditions returns the
state unchanged (the token falls into the per-axis branch, which iterates
over its characters and matches none of them). -/
theorem unknown_bc_token_cex : apply_boundary_conditions simC3 = .ok simC3 := rfl

theorem foldlM_id_of_mem {α : Type} (f : Sim → α → Except PyErr Sim) :
    ∀ (l : List α), (∀ a ∈ l, ∀ s, f s a = .ok s) → ∀ s, List.foldlM f s l = .ok s := by
  intro l
  induction l with
  | nil => intro _ s; rw [List.foldlM_nil]; rfl
  | cons a t ih =>
      intro hmem s
      rw [List.foldlM_cons, hmem a (by simp)]
      exact ih (fun b hb s => hmem b (by simp [hb]) s) s

theorem charTok_ne (c : Char) (t : String) (ht : t.length ≠ 1) : Char.toString c ≠ t := by
  intro h
  exact ht (h ▸ rfl)

theorem bcAxisBody_skips (e : String) (i : ℕ) (s : Sim)
    (h : e ∉ (["PERIODIC", "NEUMANN", "DIRCHLET"] : List String)) :
    bcAxisBody e i s = .ok s := by
  simp only [List.mem_cons, List.mem_singleton, not_or] at h
  obtain ⟨h1, h2, h3, -⟩ := h
  unfold bcAxisBody
  rw [if_neg h1, if_neg h2, if_neg h3]

/-- Claim C3 (amended): an unrecognized policy token raises no error and is
silently ignored.  A uniform unrecognized token (anything outside the exact
strings PERIODIC, NEUMANN and DIRCHLET - the code only knows the misspelled
DIRCHLET, so even the standard spelling DIRICHLET is unrecognized) leaves
the whole state, in particular every field, unchanged; an unrecognized
entry of a per-axis list is skipped while the recognized entries still
apply. -/
theorem unknown_bc_token_amended :
    (∀ (s : Sim) (tok : String), s.uses_gpu = false →
      s.boundary_conditions_type = .str tok →
      tok ∉ (["PERIODIC", "NEUMANN", "DIRCHLET"] : List String) →
      apply_boundary_conditions s = .ok s) ∧
    (∀ (e : String) (i : ℕ) (s : Sim),
      e ∉ (["PERIODIC", "NEUMANN", "DIRCHLET"] : List String) →
      bcAxisBody e i s = .ok s) := by
  refine ⟨?_, bcAxisBody_skips⟩
  intro s tok hg hb h
  simp only [List.mem_cons, List.mem_singleton, not_or] at h
  obtain ⟨h1, h2, h3, -⟩ := h
  unfold apply_boundary_conditions
  rw [hg, hb]
  simp only [Bool.false_eq_true, if_false]
  rw [if_neg (by simp [h1]), if_neg (by simp [h2]), if_neg (by simp [h3])]
  refine foldlM_id_of_mem _ _ (fun p hp s1 => ?_) s
  rw [List.enum_eq_zip_range] at hp
  obtain ⟨-, hp2⟩ := List.of_mem_zip hp
  obtain ⟨c, -, hc⟩ := List.mem_map.mp hp2
  rw [← hc]
  unfold bcAxisBody
  rw [if_neg (charTok_ne c _ (by decide)), if_neg (charTok_ne c _ (by decide)),
      if_neg (charTok_ne c _ (by decide))]

/-- Witness for the amended claim C3 at the concrete token DIRICHLET. -/
theorem unknown_bc_token_amended_w :
    apply_boundary_conditions simC3 = .ok simC3 ∧
    bcAxisBody "DIRICHLET" 1 simC3 = .ok simC3 :=
  ⟨unknown_bc_token_amended.1 simC3 "DIRICHLET" rfl rfl (by decide),
   unknown_bc_token_amended.2 "DIRICHLET" 1 simC3 (by decide)⟩

/-! Claim C4: unrecognized temperature-mode tokens. -/

/-- A simulation declaring the unknown temperature mode FOO. -/
def simC4 : Sim := { sim0 with temperature_type := "FOO" }

/-- Claim C4, as stated, fails on the code at initialization: for the
unknown mode FOO, the dispatch of init_temperature_field silently does
nothing (its if/elif chain has no else), returning the state unchanged with
no configuration error; and the failure the method does exhibit when
actually invoked is a NameError on the missing self binding, raised for
every token alike, not a configuration error about the mode.  Only the
update attempt raises the claimed error. -/
theorem temp_mode_unknown_cex :
    init_temperature_field_body simC4 = .ok simC4 ∧
    init_temperature_field simC4 = .error (.nameError "self") ∧
    update_temperature_field simC4 = .error (.valueError "Unknown temperature profile.") :=
  ⟨rfl, rfl, rfl⟩

/-- Claim C4 (amended): for a mode token outside NONE, ISOTHERMAL,
LINEAR_GRADIENT and XDMF_FILE (the token the spec calls TABULATED_FILE),
every update attempt raises ValueError, but initialization does not fail
with a configuration error: the init dispatch silently ignores the token. -/
theorem temp_mode_unknown_amended (s : Sim) (tok : String)
    (hg : s.uses_gpu = false) (ht : s.temperature_type = tok)
    (h : tok ∉ (["NONE", "ISOTHERMAL", "LINEAR_GRADIENT", "XDMF_FILE"] : List String)) :
    init_temperature_field_body s = .ok s ∧
    update_temperature_field s = .error (.valueError "Unknown temperature profile.") := by
  simp only [List.mem_cons, List.mem_singleton, not_or] at h
  obtain ⟨h1, h2, h3, h4, -⟩ := h
  constructor
  · unfold init_temperature_field_body
    rw [ht, if_neg h1, if_neg h2, if_neg h3, if_neg h4]
  · unfold update_temperature_field
    rw [hg, ht]
    simp only [Bool.false_eq_true, if_false]
    rw [if_neg h2, if_neg h3, if_neg h4, if_neg (by simp [h1, h2, h3, h4])]

/-- Witness for the amended claim C4 at the concrete token FOO. -/
theorem temp_mode_unknown_amended_w :
    init_temperature_field_body simC4 = .ok simC4 ∧
    update_temperature_field simC4 = .error (.valueError "Unknown temperature profile.") :=
  temp_mode_unknown_amended simC4 "FOO" rfl rfl (by decide)

/-! Claims C5, C6, C7: what apply_boundary_conditions actually writes.  In
every slice table the entries for the second and third axis are tuples
beginning with None, numpy newaxis, so every iteration of the axis loop
reads and writes axis 0; edges along axis 1 and axis 2 are never touched. -/

/-- A 2-D PERIODIC simulation: one 4x4 field and a 4x4 temperature. -/
def simC5 : Sim := { sim0 with
  requires_initialization := false,
  boundary_conditions_type := .str "PERIODIC",
  fields := [⟨"phi", .r2 [[1, 2, 3, 4], [5, 6, 7, 8], [9, 10, 11, 12], [13, 14, 15, 16]]⟩],
  temperature := some
    ⟨"T", .r2 [[21, 22, 23, 24], [25, 26, 27, 28], [29, 30, 31, 32], [33, 34, 35, 36]]⟩ }

/-- Claim C5 evaluated at the failing input: the PERIODIC branch wraps only
the axis-0 (row) edges - both axis iterations write the same rows, because
the axis-1 slice tuples (None, 0) and company address axis 0 - so the
axis-1 (column) edge cells keep their old values (row [5, 6, 7, 8] keeps 5
and 8 instead of receiving the wrapped 7 and 6), and the temperature
receives only the first of the two periodic assignments: its last row stays
[33, 34, 35, 36] instead of wrapping to [25, 26, 27, 28]. -/
theorem periodic_wraps_axis0_only :
    apply_boundary_conditions simC5 = .ok { simC5 with
      fields := [⟨"phi", .r2 [[9, 10, 11, 12], [5, 6, 7, 8], [9, 10, 11, 12], [5, 6, 7, 8]]⟩],
      temperature := some
        ⟨"T", .r2 [[29, 30, 31, 32], [25, 26, 27, 28], [29, 30, 31, 32], [33, 34, 35, 36]]⟩ } :=
  rfl

/-- A 2-D NEUMANN simulation over symbolic entries: a 4x2 field, prescribed
derivatives p q at the low edge and t u at the high edge of field 0, and
cell spacing dx. -/
def simC6 (a b c d e f g h p q t u dx : ℚ) : Sim := { sim0 with
  requires_initialization := false,
  boundary_conditions_type := .str "NEUMANN", dx := dx, dimensions := [4, 2],
  fields := [⟨"phi", .r2 [[a, b], [c, d], [e, f], [g, h]]⟩],
  boundary_conditions_array := [.r2 [[p, q], [0, 0], [0, 0], [t, u]]] }

/-- A 1-D NEUMANN simulation over symbolic entries with derivatives p and t. -/
def simC6b (w x y z p t dx : ℚ) : Sim := { sim0 with
  requires_initialization := false,
  boundary_conditions_type := .str "NEUMANN", dx := dx,
  fields := [⟨"phi", .r1 [w, x, y, z]⟩],
  boundary_conditions_array := [.r1 [p, 0, 0, t]] }

/-- Claim C6 evaluated: on axis 0 the NEUMANN formula holds exactly - the
low edge becomes interior minus dx times the prescribed derivative at the
matching index, the high edge interior plus it, and with derivative 0 the
edges exactly duplicate the adjacent interior - but for a rank-2 field the
axis-1 edges (the first and last entry of every row) are never written:
both axis iterations apply the axis-0 rule, because the slice tuples
(None, 0) and company address axis 0, so rows 1 and 2 keep every entry. -/
theorem neumann_axis0_only :
    (∀ w x y z p t dx : ℚ, apply_boundary_conditions (simC6b w x y z p t dx) =
      .ok { simC6b w x y z p t dx with
        fields := [⟨"phi", .r1 [x - dx * p, x, y, y + dx * t]⟩] }) ∧
    (∀ a b c d e f g h p q t u dx : ℚ, apply_boundary_conditions (simC6 a b c d e f g h p q t u dx) =
      .ok { simC6 a b c d e f g h p q t u dx with
        fields := [⟨"phi", .r2 [[c - dx * p, d - dx * q], [c, d], [e, f],
                                [e + dx * t, f + dx * u]]⟩] }) ∧
    (∀ w x y z dx : ℚ, apply_boundary_conditions (simC6b w x y z 0 0 dx) =
      .ok { simC6b w x y z 0 0 dx with fields := [⟨"phi", .r1 [x, x, y, y]⟩] }) := by
  refine ⟨fun w x y z p t dx => rfl, fun a b c d e f g h p q t u dx => rfl,
          fun w x y z dx => ?_⟩
  have h : apply_boundary_conditions (simC6b w x y z 0 0 dx) =
      .ok { simC6b w x y z 0 0 dx with
        fields := [⟨"phi", .r1 [x - dx * 0, x, y, y + dx * 0]⟩] } := rfl
  rw [h]
  norm_num

/-- A 2-D DIRCHLET simulation (the token as the source spells it) with
prescribed constants 50 and 60 and a temperature field. -/
def simC7 : Sim := { sim0 with
  requires_initialization := false,
  boundary_conditions_type := .str "DIRCHLET",
  fields := [⟨"phi", .r2 [[1, 2, 3, 4], [5, 6, 7, 8], [9, 10, 11, 12], [13, 14, 15, 16]]⟩],
  temperature := some
    ⟨"T", .r2 [[21, 22, 23, 24], [25, 26, 27, 28], [29, 30, 31, 32], [33, 34, 35, 36]]⟩,
  boundary_conditions_array :=
    [.r2 [[50, 50, 50, 50], [0, 0, 0, 0], [0, 0, 0, 0], [60, 60, 60, 60]]] }

/-- The same simulation with the policy given per axis. -/
def simC7p : Sim := { simC7 with boundary_conditions_type := .list ["DIRCHLET", "DIRCHLET"] }

/-- Claim C7 evaluated: under DIRCHLET the axis-0 edges of the field are
overwritten with the stored constants and the temperature instead gets the
one-sided NEUMANN copy (row 0 := row 1), identically in the uniform and the
per-axis branch - but only on axis 0: the axis-1 (column) edges of both the
field and the temperature are never written, and only the literal token
DIRCHLET (not the spelling DIRICHLET) selects this branch at all. -/
theorem dirchlet_axis0_and_temperature :
    apply_boundary_conditions simC7 = .ok { simC7 with
      fields := [⟨"phi",
        .r2 [[50, 50, 50, 50], [5, 6, 7, 8], [9, 10, 11, 12], [60, 60, 60, 60]]⟩],
      temperature := some
        ⟨"T", .r2 [[25, 26, 27, 28], [25, 26, 27, 28], [29, 30, 31, 32], [33, 34, 35, 36]]⟩ } ∧
    apply_boundary_conditions simC7p = .ok { simC7p with
      fields := [⟨"phi",
        .r2 [[50, 50, 50, 50], [5, 6, 7, 8], [9, 10, 11, 12], [60, 60, 60, 60]]⟩],
      temperature := some
        ⟨"T", .r2 [[25, 26, 27, 28], [25, 26, 27, 28], [29, 30, 31, 32], [33, 34, 35, 36]]⟩ } :=
  ⟨rfl, rfl⟩

/-! Claim C8: the LINEAR_GRADIENT per-step temperature update. -/

theorem map_add_add (c d : ℚ) (l : List ℚ) :
    (l.map (fun x => x + d)).map (fun x => x + c) = l.map (fun x => x + (d + c)) := by
  rw [List.map_map]
  congr 1
  funext x
  simp [Function.comp]
  ring

theorem map2_add_add (c d : ℚ) (l : List (List ℚ)) :
    (l.map (fun r => r.map (fun x => x + d))).map (fun r => r.map (fun x => x + c)) =
    l.map (fun r => r.map (fun x => x + (d + c))) := by
  rw [List.map_map]
  have hfun : ((fun r : List ℚ => r.map (fun x => x + c)) ∘ fun r : List ℚ =>
      r.map (fun x => x + d)) = fun r : List ℚ => r.map (fun x => x + (d + c)) := by
    funext r
    simp only [Function.comp]
    exact map_add_add c d r
  rw [hfun]

theorem addScalar_addScalar (c d : ℚ) (a : Arr) :
    (Arr.addScalar d a).addScalar c = a.addScalar (d + c) := by
  cases a with
  | r1 l => simp only [Arr.addScalar]; rw [map_add_add]
  | r2 l => simp only [Arr.addScalar]; rw [map2_add_add]
  | r3 l =>
      simp only [Arr.addScalar]
      rw [List.map_map]
      have hfun : ((fun p : List (List ℚ) => p.map (fun r => r.map (fun x => x + c))) ∘
          fun p : List (List ℚ) => p.map (fun r => r.map (fun x => x + d))) =
          fun p : List (List ℚ) => p.map (fun r => r.map (fun x => x + (d + c))) := by
        funext p
        simp only [Function.comp]
        exact map2_add_add c d p
      rw [hfun]

theorem addScalar_zero (a : Arr) : a.addScalar 0 = a := by
  cases a <;> simp [Arr.addScalar]

theorem addScalar_iterate (c : ℚ) : ∀ (k : ℕ) (a : Arr),
    (Arr.addScalar c)^[k] a = a.addScalar ((k : ℚ) * c) := by
  intro k
  induction k with
  | zero => intro a; simp [addScalar_zero]
  | succ k ih =>
      intro a
      rw [Function.iterate_succ_apply, ih, addScalar_addScalar]
      congr 1
      push_cast
      ring

theorem linear_gradient_updates_aux : ∀ (k : ℕ) (s : Sim) (t0 : Field),
    s.uses_gpu = false → s.temperature_type = "LINEAR_GRADIENT" → s.temperature = some t0 →
    updateIter s k = .ok { s with
      temperature := some ⟨t0.name, (Arr.addScalar (s.dTdt * s.dt))^[k] t0.data⟩ } := by
  intro k
  induction k with
  | zero =>
      intro s t0 hg ht h0
      obtain ⟨nm, da⟩ := t0
      show (Except.ok s : Except PyErr Sim) = _
      dsimp only
      rw [Function.iterate_zero_apply, ← h0]
  | succ k ih =>
      intro s t0 hg ht h0
      have hupd : update_temperature_field s = .ok { s with
          temperature := some ⟨t0.name, Arr.addScalar (s.dTdt * s.dt) t0.data⟩ } := by
        unfold update_temperature_field
        rw [hg, ht, h0]
        rw [if_neg (by simp), if_neg (by decide), if_pos rfl]
      show (update_temperature_field s).bind (fun s1 => updateIter s1 k) = _
      rw [hupd]
      show updateIter
        { s with temperature := some ⟨t0.name, Arr.addScalar (s.dTdt * s.dt) t0.data⟩ } k = _
      rw [ih { s with temperature := some ⟨t0.name, Arr.addScalar (s.dTdt * s.dt) t0.data⟩ }
            ⟨t0.name, Arr.addScalar (s.dTdt * s.dt) t0.data⟩ hg ht rfl]
      rfl

/-- Claim C8: under LINEAR_GRADIENT each update adds dTdt * dt once,
uniformly, to the stored temperature array, by incremental addition to the
existing array; after k updates the temperature is the k-fold iterate of
that addition on the starting array, which (exactly, over the rationals)
equals the starting array plus k * dTdt * dt. -/
theorem linear_gradient_updates (s : Sim) (t0 : Field) (k : ℕ)
    (hg : s.uses_gpu = false) (ht : s.temperature_type = "LINEAR_GRADIENT")
    (h0 : s.temperature = some t0) :
    updateIter s k = .ok { s with
      temperature := some ⟨t0.name, (Arr.addScalar (s.dTdt * s.dt))^[k] t0.data⟩ } ∧
    (Arr.addScalar (s.dTdt * s.dt))^[k] t0.data =
      t0.data.addScalar ((k : ℚ) * (s.dTdt * s.dt)) :=
  ⟨linear_gradient_updates_aux k s t0 hg ht h0,
   addScalar_iterate (s.dTdt * s.dt) k t0.data⟩

/-- A LINEAR_GRADIENT simulation with temperature [1, 2], dTdt = 3, dt = 2. -/
def simC8 : Sim := { sim0 with
  requires_initialization := false, temperature_type := "LINEAR_GRADIENT",
  temperature := some ⟨"T", .r1 [1, 2]⟩, dTdt := 3, dt := 2 }

/-- Witness for claim C8: two updates add 6 twice, [1, 2] becomes [13, 14]. -/
theorem linear_gradient_updates_w :
    updateIter simC8 2 = .ok { simC8 with temperature := some ⟨"T", .r1 [13, 14]⟩ } ∧
    (Arr.addScalar (simC8.dTdt * simC8.dt))^[2] (Arr.r1 [1, 2]) =
      (Arr.r1 [1, 2]).addScalar ((2 : ℚ) * (simC8.dTdt * simC8.dt)) := by
  have h := linear_gradient_updates simC8 ⟨"T", .r1 [1, 2]⟩ 2 rfl rfl rfl
  refine ⟨?_, h.2⟩
  rw [h.1]
  norm_num [simC8, sim0, Arr.addScalar, Function.iterate_succ_apply, Function.iterate_zero_apply]

/-! Claim C9: the XDMF_FILE time interpolation formula. -/

theorem zipWithExact_congr {α β γ : Type} (f g : α → β → Option γ)
    (h : ∀ a b, f a b = g a b) :
    ∀ (l1 : List α) (l2 : List β), zipWithExact f l1 l2 = zipWithExact g l1 l2 := by
  intro l1
  induction l1 with
  | nil => intro l2; cases l2 <;> rfl
  | cons a t ih =>
      intro l2
      cases l2 with
      | nil => rfl
      | cons b t2 => simp only [zipWithExact]; rw [h a b, ih t2]

theorem zipWithExact_left {α β : Type} (F : α → β → Option α) (R : α → β → Prop)
    (hF : ∀ a b, R a b → F a b = some a) :
    ∀ (l1 : List α) (l2 : List β), l1.length = l2.length →
    (∀ p ∈ l1.zip l2, R p.1 p.2) →
    zipWithExact F l1 l2 = some l1 := by
  intro l1
  induction l1 with
  | nil =>
      intro l2 h _
      cases l2 with
      | nil => rfl
      | cons b t => simp at h
  | cons a t ih =>
      intro l2 h hall
      cases l2 with
      | nil => simp at h
      | cons b t2 =>
          simp only [zipWithExact]
          rw [hF a b (hall (a, b) (by simp)),
              ih t2 (by simpa using h) (fun p hp => hall p (by simp [hp]))]

theorem zipWithExact_right {α β : Type} (F : α → β → Option β) (R : α → β → Prop)
    (hF : ∀ a b, R a b → F a b = some b) :
    ∀ (l1 : List α) (l2 : List β), l1.length = l2.length →
    (∀ p ∈ l1.zip l2, R p.1 p.2) →
    zipWithExact F l1 l2 = some l2 := by
  intro l1
  induction l1 with
  | nil =>
      intro l2 h _
      cases l2 with
      | nil => rfl
      | cons b t => simp at h
  | cons a t ih =>
      intro l2 h hall
      cases l2 with
      | nil => simp at h
      | cons b t2 =>
          simp only [zipWithExact]
          rw [hF a b (hall (a, b) (by simp)),
              ih t2 (by simpa using h) (fun p hp => hall p (by simp [hp]))]

theorem zipPure_congr (f g : ℚ → ℚ → ℚ) (h : ∀ a b, f a b = g a b) (x y : Arr) :
    Arr.zipPure f x y = Arr.zipPure g x y := by
  have h1 : ∀ (a b : ℚ), some (f a b) = some (g a b) := by intro a b; rw [h]
  have h2 := zipWithExact_congr _ _ h1
  have h3 := zipWithExact_congr _ _ h2
  have h4 := zipWithExact_congr _ _ h3
  cases x with
  | r1 a =>
      cases y with
      | r1 b => simp only [Arr.zipPure]; rw [h2]
      | r2 b => rfl
      | r3 b => rfl
  | r2 a =>
      cases y with
      | r1 b => rfl
      | r2 b => simp only [Arr.zipPure]; rw [h3]
      | r3 b => rfl
  | r3 a =>
      cases y with
      | r1 b => rfl
      | r2 b => rfl
      | r3 b => simp only [Arr.zipPure]; rw [h4]

theorem zipPure_left (x y : Arr) (hs : Arr.sameShape x y = true) :
    Arr.zipPure (fun a _ => a) x y = some x := by
  cases x with
  | r1 a =>
      cases y with
      | r1 b =>
          simp only [Arr.sameShape, beq_iff_eq] at hs
          simp only [Arr.zipPure]
          rw [zipWithExact_left _ (fun _ _ => True) (fun _ _ _ => rfl) a b hs
                (fun _ _ => trivial)]
          rfl
      | r2 b => simp [Arr.sameShape] at hs
      | r3 b => simp [Arr.sameShape] at hs
  | r2 a =>
      cases y with
      | r1 b => simp [Arr.sameShape] at hs
      | r2 b =>
          simp only [Arr.sameShape, Bool.and_eq_true, beq_iff_eq, List.all_eq_true] at hs
          simp only [Arr.zipPure]
          rw [zipWithExact_left _ (fun (r1 r2 : List ℚ) => r1.length = r2.length)
                (fun r1 r2 hr =>
                  zipWithExact_left _ (fun _ _ => True) (fun _ _ _ => rfl) r1 r2 hr
                    (fun _ _ => trivial))
                a b hs.1 (fun p hp => hs.2 p hp)]
          rfl
      | r3 b => simp [Arr.sameShape] at hs
  | r3 a =>
      cases y with
      | r1 b => simp [Arr.sameShape] at hs
      | r2 b => simp [Arr.sameShape] at hs
      | r3 b =>
          simp only [Arr.sameShape, Bool.and_eq_true, beq_iff_eq, List.all_eq_true] at hs
          simp only [Arr.zipPure]
          rw [zipWithExact_left _
                (fun (p1 p2 : List (List ℚ)) => p1.length = p2.length ∧
                  ∀ q ∈ p1.zip p2, q.1.length = q.2.length)
                (fun p1 p2 hp =>
                  zipWithExact_left _ (fun (r1 r2 : List ℚ) => r1.length = r2.length)
                    (fun r1 r2 hr =>
                      zipWithExact_left _ (fun _ _ => True) (fun _ _ _ => rfl) r1 r2 hr
                        (fun _ _ => trivial))
                    p1 p2 hp.1 (fun q hq => hp.2 q hq))
                a b hs.1
                (fun p hp => by
                  have := hs.2 p hp
                  simp only [Bool.and_eq_true, beq_iff_eq, List.all_eq_true] at this
                  exact ⟨this.1, this.2⟩)]
          rfl

theorem zipPure_right (x y : Arr) (hs : Arr.sameShape x y = true) :
    Arr.zipPure (fun _ b => b) x y = some y := by
  cases x with
  | r1 a =>
      cases y with
      | r1 b =>
          simp only [Arr.sameShape, beq_iff_eq] at hs
          simp only [Arr.zipPure]
          rw [zipWithExact_right _ (fun _ _ => True) (fun _ _ _ => rfl) a b hs
                (fun _ _ => trivial)]
          rfl
      | r2 b => simp [Arr.sameShape] at hs
      | r3 b => simp [Arr.sameShape] at hs
  | r2 a =>
      cases y with
      | r1 b => simp [Arr.sameShape] at hs
      | r2 b =>
          simp only [Arr.sameShape, Bool.and_eq_true, beq_iff_eq, List.all_eq_true] at hs
          simp only [Arr.zipPure]
          rw [zipWithExact_right _ (fun (r1 r2 : List ℚ) => r1.length = r2.length)
                (fun r1 r2 hr =>
                  zipWithExact_right _ (fun _ _ => True) (fun _ _ _ => rfl) r1 r2 hr
                    (fun _ _ => trivial))
                a b hs.1 (fun p hp => hs.2 p hp)]
          rfl
      | r3 b => simp [Arr.sameShape] at hs
  | r3 a =>
      cases y with
      | r1 b => simp [Arr.sameShape] at hs
      | r2 b => simp [Arr.sameShape] at hs
      | r3 b =>
          simp only [Arr.sameShape, Bool.and_eq_true, beq_iff_eq, List.all_eq_true] at hs
          simp only [Arr.zipPure]
          rw [zipWithExact_right _
                (fun (p1 p2 : List (List ℚ)) => p1.length = p2.length ∧
                  ∀ q ∈ p1.zip p2, q.1.length = q.2.length)
                (fun p1 p2 hp =>
                  zipWithExact_right _ (fun (r1 r2 : List ℚ) => r1.length = r2.length)
                    (fun r1 r2 hr =>
                      zipWithExact_right _ (fun _ _ => True) (fun _ _ _ => rfl) r1 r2 hr
                        (fun _ _ => trivial))
                    p1 p2 hp.1 (fun q hq => hp.2 q hq))
                a b hs.1
                (fun p hp => by
                  have := hs.2 p hp
                  simp only [Bool.and_eq_true, beq_iff_eq, List.all_eq_true] at this
                  exact ⟨this.1, this.2⟩)]
          rfl

theorem interpS_at_lower (a b lb ub : ℚ) (h : lb ≠ ub) : interpS a b lb ub lb = a := by
  have h2 : ub - lb ≠ 0 := sub_ne_zero_of_ne (Ne.symm h)
  unfold interpS
  field_simp

theorem interpS_at_upper (a b lb ub : ℚ) (h : lb ≠ ub) : interpS a b lb ub ub = b := by
  have h2 : ub - lb ≠ 0 := sub_ne_zero_of_ne (Ne.symm h)
  unfold interpS
  field_simp

theorem interpS_at_mid (a b lb ub : ℚ) (h : lb ≠ ub) :
    interpS a b lb ub ((lb + ub) / 2) = (a + b) / 2 := by
  have h2 : ub - lb ≠ 0 := sub_ne_zero_of_ne (Ne.symm h)
  unfold interpS
  field_simp
  ring

/-- Claim C9, for the interpolation expression itself (the statement that
stores it is a SyntaxError, see the update model): the time-linear
interpolation of line 321 reproduces the lower bracket array exactly at
t = lower_time, the upper bracket array exactly at t = upper_time, and the
elementwise arithmetic mean exactly at the midpoint, whenever the two
bracket arrays share a shape and the bracket times differ. -/
theorem xdmf_bracket_identities (lower upper : Arr) (lb ub : ℚ)
    (hs : Arr.sameShape lower upper = true) (hne : lb ≠ ub) :
    xdmf_interpolation lower upper lb ub lb = some lower ∧
    xdmf_interpolation lower upper lb ub ub = some upper ∧
    xdmf_interpolation lower upper lb ub ((lb + ub) / 2) =
      Arr.zipPure (fun a b => (a + b) / 2) lower upper := by
  unfold xdmf_interpolation
  refine ⟨?_, ?_, ?_⟩
  · rw [zipPure_congr _ (fun a _ => a) (fun a b => interpS_at_lower a b lb ub hne)]
    exact zipPure_left lower upper hs
  · rw [zipPure_congr _ (fun _ b => b) (fun a b => interpS_at_upper a b lb ub hne)]
    exact zipPure_right lower upper hs
  · exact zipPure_congr _ _ (fun a b => interpS_at_mid a b lb ub hne) lower upper

/-- Witness for claim C9 on concrete bracket arrays. -/
theorem xdmf_bracket_identities_w :
    xdmf_interpolation (.r1 [1, 2]) (.r1 [3, 6]) 0 10 0 = some (.r1 [1, 2]) ∧
    xdmf_interpolation (.r1 [1, 2]) (.r1 [3, 6]) 0 10 10 = some (.r1 [3, 6]) ∧
    xdmf_interpolation (.r1 [1, 2]) (.r1 [3, 6]) 0 10 ((0 + 10) / 2) =
      Arr.zipPure (fun a b => (a + b) / 2) (.r1 [1, 2]) (.r1 [3, 6]) :=
  xdmf_bracket_identities (.r1 [1, 2]) (.r1 [3, 6]) 0 10 (by decide) (by norm_num)

/-! Claim C10: the lazy initialization path always fails. -/

/-- Claim C10: on every freshly constructed simulation (requiring
initialization), the first simulate call fails before reaching the step
loop: line 243 of initialize_simulation reads the bare name framework,
which resolves neither among the method locals nor among the module
globals; and the helpers init_boundary_conditions and
init_temperature_field, defined without a self parameter, fail on their
first read of the free name self when invoked - so this error path is
reachable on every first simulate call. -/
theorem lazy_init_always_fails (s : Sim) (n : ℕ)
    (h : s.requires_initialization = true) :
    lookupName initSimLocals moduleGlobals "framework" = false ∧
    initialize_simulation s = .error (.nameError "framework") ∧
    init_boundary_conditions s = .error (.nameError "self") ∧
    init_temperature_field s = .error (.nameError "self") ∧
    simulate s n false = .error (.nameError "framework") := by
  refine ⟨rfl, rfl, rfl, rfl, ?_⟩
  unfold simulate
  rw [h]
  rfl

/-- Witness for claim C10 at a freshly constructed simulation. -/
theorem lazy_init_always_fails_w :
    lookupName initSimLocals moduleGlobals "framework" = false ∧
    initialize_simulation sim0 = .error (.nameError "framework") ∧
    init_boundary_conditions sim0 = .error (.nameError "self") ∧
    init_temperature_field sim0 = .error (.nameError "self") ∧
    simulate sim0 3 false = .error (.nameError "framework") :=
  lazy_init_always_fails sim0 3 rfl

end Pyphasefield
